import Mathlib

/-!
Shallow embedding of the whatsapp_cloneWithPIN repository.

Sources embedded here:
- the SQL schema and row-level policies (migration file, src/unnamed/part_000):
  tables profiles, connections, chats, their row-level policies, and the
  plpgsql function generate_unique_pin;
- src/src/store/useChatStore.ts: sendMessage, fetchChats, subscribeToChats;
- src/src/store/useAuthStore.ts: signUp;
- src/src/pages/Chat.tsx: handleAddContact.

Identities (uuids) and text columns are modelled as String, timestamps as
Nat, booleans as Bool. The relational store is a Lean list of rows; an
insert either extends the list or is rejected with a store error, which
models the constraint checks (NOT NULL, UNIQUE) and the row-level policy
checks (WITH CHECK) that Postgres performs on the shipped schema.
-/

/-- Row of the `profiles` table: `id uuid PRIMARY KEY`, `private_pin text
UNIQUE NOT NULL`, `display_name text NOT NULL`, `avatar_url text`,
timestamps modelled as Nat. -/
structure ProfileRow where
  id : String
  private_pin : String
  display_name : String
  avatar_url : Option String := none
  created_at : Nat := 0
  updated_at : Nat := 0
deriving DecidableEq, Repr

/-- Row of the `connections` table, keeping the two columns the
application writes and the uniqueness constraint ranges over:
`user_id` (the user who initiated the connection) and
`connected_user_id`. The store-defaulted `id uuid` and `created_at`
columns play no role in any operation modelled here. -/
structure ConnectionRow where
  user_id : String
  connected_user_id : String
deriving DecidableEq, Repr

/-- Row of the `chats` table: `id uuid PRIMARY KEY`, `sender_id uuid NOT
NULL`, `receiver_id uuid NOT NULL`, `message text NOT NULL`,
`created_at timestamptz`, `read boolean DEFAULT false`. -/
structure ChatRow where
  id : String
  sender_id : String
  receiver_id : String
  message : String
  created_at : Nat
  read : Bool := false
deriving DecidableEq, Repr

/-- Errors surfaced by the relational store, distinguishing a uniqueness
violation from other failures as required by the schema (UNIQUE
constraints) and by the row-level policies (default deny / WITH CHECK). -/
inductive StoreError where
  | uniqueViolation
  | notNullViolation
  | rlsViolation
  | noRows
deriving DecidableEq, Repr

/-- Profile lookup used by handleAddContact (Chat.tsx):
`from('profiles').select('*').eq('private_pin', pinToAdd).single()`.
Since `private_pin` is UNIQUE, at most one row matches; `find?` returns
it, and `none` models the `.single()` error on zero rows. -/
def findProfileByPin (profiles : List ProfileRow) (pin : String) : Option ProfileRow :=
  profiles.find? (fun p => p.private_pin == pin)

/-- Membership test for the UNIQUE(user_id, connected_user_id) constraint
of the `connections` table. -/
def hasConnection (conns : List ConnectionRow) (uid cuid : String) : Bool :=
  conns.any (fun c => c.user_id == uid && c.connected_user_id == cuid)

/-- Insert into `connections` as performed by the store for an
authenticated caller: the INSERT policy `WITH CHECK (auth.uid() = user_id)`
must pass, then the UNIQUE(user_id, connected_user_id) constraint is
checked; on success the row is appended. -/
def connectionsInsert (caller : String) (conns : List ConnectionRow)
    (row : ConnectionRow) : Except StoreError (List ConnectionRow) :=
  if row.user_id != caller then .error .rlsViolation
  else if hasConnection conns row.user_id row.connected_user_id then .error .uniqueViolation
  else .ok (conns ++ [row])

/-- Errors of handleAddContact (Chat.tsx), one per `setError` branch:
"User not found with this PIN", "You cannot add yourself",
"Failed to add contact". -/
inductive AddContactError where
  | userNotFound
  | cannotAddSelf
  | failedToAddContact
deriving DecidableEq, Repr

/-- handleAddContact from Chat.tsx, run by the signed-in user `caller`
against the current `profiles` and `connections` tables: look up the
profile whose `private_pin` equals `pinToAdd`; on a lookup miss report
"User not found with this PIN"; if the found profile is the caller,
report "You cannot add yourself"; otherwise insert the single row
`{ user_id: caller, connected_user_id: profile.id }`, mapping any insert
error to "Failed to add contact". On success it returns the new table
contents. -/
def handleAddContact (caller : String) (pinToAdd : String)
    (profiles : List ProfileRow) (conns : List ConnectionRow) :
    Except AddContactError (List ConnectionRow) :=
  match findProfileByPin profiles pinToAdd with
  | none => .error .userNotFound
  | some profile =>
    if profile.id == caller then .error .cannotAddSelf
    else
      match connectionsInsert caller conns ⟨caller, profile.id⟩ with
      | .error _ => .error .failedToAddContact
      | .ok conns2 => .ok conns2

/-- Row-level SELECT policy on `chats`:
`USING (auth.uid() = sender_id OR auth.uid() = receiver_id)`. -/
def rlsChatRead (caller : String) (m : ChatRow) : Bool :=
  caller == m.sender_id || caller == m.receiver_id

/-- Query filter of fetchChats (useChatStore.ts): the two chained `.or`
clauses are conjoined by the store, giving
`(sender_id = userId OR receiver_id = userId) AND
(sender_id = receiverId OR receiver_id = receiverId)`. -/
def fetchFilter (userId receiverId : String) (m : ChatRow) : Bool :=
  (m.sender_id == userId || m.receiver_id == userId) &&
    (m.sender_id == receiverId || m.receiver_id == receiverId)

/-- Rows of the chats table that fetchChats selects for a signed-in
`caller` calling `fetchChats userId receiverId`: the SELECT policy is
applied to every row, then the query filter. -/
def fetchRows (caller userId receiverId : String) (store : List ChatRow) : List ChatRow :=
  (store.filter (rlsChatRead caller)).filter (fetchFilter userId receiverId)

/-- Ordering comparison of the query clause
`.order('created_at', { ascending: true })`. -/
def createdLe (x y : ChatRow) : Prop :=
  x.created_at ≤ y.created_at

instance : DecidableRel createdLe := fun x y => by
  unfold createdLe; infer_instance

/-- Valid store responses to fetchChats: the query orders only by
`created_at` ascending, so the store may return ANY permutation of the
selected rows that is sorted by `created_at`; the relative order of rows
with equal `created_at` is not determined by the query. -/
def fetchResultValid (caller userId receiverId : String)
    (store result : List ChatRow) : Prop :=
  result.Perm (fetchRows caller userId receiverId store) ∧ result.Sorted createdLe

/-- Predicate taken from the words of the specification: a message is
part of the conversation between `a` and `b` when its
`{sender, receiver}` pair is `{a, b}` in either direction. Used only to
compare the embedded query against the specification. -/
def specBetween (a b : String) (m : ChatRow) : Bool :=
  (m.sender_id == a && m.receiver_id == b) || (m.sender_id == b && m.receiver_id == a)

/-- Ordering taken from the words of the specification: creation time
ascending, ties in creation time broken by id (ids compared in the
lexicographic order of their character sequences). Used only to compare
the embedded query against the specification. -/
def specCreatedThenId (x y : ChatRow) : Prop :=
  x.created_at < y.created_at ∨
    (x.created_at = y.created_at ∧ (x.id.data < y.id.data ∨ x.id = y.id))

instance : DecidableRel specCreatedThenId := fun x y => by
  unfold specCreatedThenId; infer_instance

/-- Server-side filter expression that subscribeToChats
(useChatStore.ts) registers with the realtime change feed, as the list of
`column=eq.value` conditions its filter string
`sender_id=eq.${userId},receiver_id=eq.${userId}` spells out. The change
feed grammar has no OR: a comma-separated list of conditions is a
conjunction. -/
def subscribeFilter (userId : String) : List (String × String) :=
  [("sender_id", userId), ("receiver_id", userId)]

/-- Value of a chats column as seen by the change feed filter. -/
def chatColumn (m : ChatRow) (col : String) : Option String :=
  if col == "sender_id" then some m.sender_id
  else if col == "receiver_id" then some m.receiver_id
  else if col == "id" then some m.id
  else if col == "message" then some m.message
  else none

/-- Conjunctive semantics of a change feed filter: every
`column=eq.value` condition must hold on the inserted row. -/
def filterMatches (conds : List (String × String)) (m : ChatRow) : Bool :=
  conds.all (fun cv => chatColumn m cv.1 == some cv.2)

/-- Delivery decision for a subscriber: an INSERT on `chats` is pushed to
the client that called `subscribeToChats userId` exactly when the
registered filter matches the new row. -/
def deliveredToSubscriber (userId : String) (m : ChatRow) : Bool :=
  filterMatches (subscribeFilter userId) m

/-- Partial chats row as built by an `.insert` call: fields the caller
does not supply stay `none` and fall back to the column default, when one
exists. `id`, `created_at` and `read` have defaults; `sender_id`,
`receiver_id` and `message` are NOT NULL without default. -/
structure ChatInsertRow where
  sender_id : Option String
  receiver_id : Option String
  message : Option String
deriving DecidableEq, Repr

/-- Row that sendMessage (useChatStore.ts) inserts:
`{ message, receiver_id: receiverId }` and nothing else — in particular
no `sender_id`. -/
def sendMessageRow (message receiverId : String) : ChatInsertRow :=
  { sender_id := none, receiver_id := some receiverId, message := some message }

/-- Store-side admission check for an INSERT on `chats` by an
authenticated caller: the NOT NULL constraints on `sender_id`,
`receiver_id` and `message` (none has a default), then the INSERT policy
`WITH CHECK (auth.uid() = sender_id)`. -/
def chatsInsertCheck (caller : String) (row : ChatInsertRow) : Except StoreError Unit :=
  match row.sender_id, row.receiver_id, row.message with
  | some s, some _, some _ => if caller == s then .ok () else .error .rlsViolation
  | _, _, _ => .error .notNullViolation

/-- sendMessage from useChatStore.ts, run by the signed-in `caller`: it
issues the insert of `sendMessageRow` and throws the store error when the
insert is rejected. -/
def sendMessage (caller message receiverId : String) : Except StoreError Unit :=
  chatsInsertCheck caller (sendMessageRow message receiverId)

/-- Commands a row-level policy can govern. -/
inductive SqlCmd where
  | readRow
  | insertRow
  | updateRow
  | deleteRow
deriving DecidableEq, Repr

/-- Row-level policies of the `profiles` table for the authenticated
role, exactly as shipped: a SELECT policy `USING (true)`, an UPDATE
policy `USING (auth.uid() = id)`, and NO policy for INSERT or DELETE —
with row-level security enabled, a command with no policy is denied for
every caller. -/
def profilesPolicyAllows (caller : String) (row : ProfileRow) : SqlCmd → Bool
  | .readRow => true
  | .updateRow => caller == row.id
  | .insertRow => false
  | .deleteRow => false

/-- Outcome of one signUp run (useAuthStore.ts): whether the
identity-provider account exists afterwards, whether the profiles row
exists afterwards, and whether signUp threw. -/
structure SignUpOutcome where
  accountExists : Bool
  profileExists : Bool
  threw : Bool
deriving DecidableEq, Repr

/-- Response of the identity provider to `supabase.auth.signUp`: an
error, or success carrying `authData.user` (which the code guards with
`if (authData.user)`, so a null user is possible on success). -/
inductive AuthSignUpResult where
  | authErr
  | okNoUser
  | okUser (id : String)
deriving DecidableEq, Repr

/-- signUp from useAuthStore.ts: call the identity provider; on error
throw; on success with a user, insert the profiles row
`{ id: authData.user.id, display_name, private_pin }` as that user and
throw when the insert is rejected; on success without a user object do
nothing further. The profile insert is admitted or denied by the shipped
`profiles` policies (`profilesPolicyAllows`). The two steps are separate
store calls: the account is created before the profile insert runs. -/
def signUp (auth : AuthSignUpResult) (displayName pin : String) : SignUpOutcome :=
  match auth with
  | .authErr => { accountExists := false, profileExists := false, threw := true }
  | .okNoUser => { accountExists := true, profileExists := false, threw := false }
  | .okUser uid =>
    let row : ProfileRow := { id := uid, private_pin := pin, display_name := displayName }
    if profilesPolicyAllows uid row .insertRow then
      { accountExists := true, profileExists := true, threw := false }
    else
      { accountExists := true, profileExists := false, threw := true }

/-- Decimal digit character, `0 ≤ d ≤ 9` mapping to '0'..'9'. -/
def digitChar (d : Nat) : Char :=
  Char.ofNat (48 + d)

/-- Decimal rendering loop for `::text` on a non-negative integer,
accumulating digits from least significant to most significant. The
first argument is fuel; `n + 1` units always suffice for input `n`
because the value shrinks by a factor of ten each step. -/
def natToDecGo : Nat → Nat → List Char → List Char
  | 0, _, acc => acc
  | fuel + 1, n, acc =>
    if n < 10 then digitChar n :: acc
    else natToDecGo fuel (n / 10) (digitChar (n % 10) :: acc)

/-- Decimal text of a non-negative integer, modelling the `::text` cast
applied to `FLOOR(RANDOM() * 1000000)`. -/
def natToDec (n : Nat) : String :=
  ⟨natToDecGo (n + 1) n []⟩

/-- LPAD(s, n, c) of Postgres: pad `s` on the left with `c` up to length
`n`; a string already longer than `n` is truncated to its first `n`
characters. -/
def lpad (s : String) (n : Nat) (c : Char) : String :=
  if n ≤ s.length then ⟨s.data.take n⟩
  else ⟨List.replicate (n - s.length) c ++ s.data⟩

/-- Candidate PIN built from one draw `r` of
`FLOOR(RANDOM() * 1000000)` (so `r < 1000000`):
`LPAD(r::text, 6, '0')`. -/
def pinCandidate (r : Nat) : String :=
  lpad (natToDec r) 6 '0'

/-- Existence check of generate_unique_pin:
`SELECT EXISTS (SELECT 1 FROM profiles WHERE private_pin = new_pin)`. -/
def pinExists (profiles : List ProfileRow) (pin : String) : Bool :=
  profiles.any (fun p => p.private_pin == pin)

/-- generate_unique_pin from the migration file: loop drawing a random
candidate, exit as soon as the candidate is not an existing pin, return
it. The loop has no retry cap; it is embedded against the stream `rands`
of values drawn from `FLOOR(RANDOM() * 1000000)`, one per iteration, and
`none` means the loop was still spinning when the modelled stream ran
out — for every finite number of iterations it had not returned. -/
def generate_unique_pin (profiles : List ProfileRow) : List Nat → Option String
  | [] => none
  | r :: rs =>
    let c := pinCandidate r
    if pinExists profiles c then generate_unique_pin profiles rs else some c

/-- All-digits test for a string, written on its character list. -/
def allDigits (s : String) : Prop :=
  ∀ c ∈ s.data, c.isDigit = true

instance (s : String) : Decidable (allDigits s) := by
  unfold allDigits; infer_instance

/-- Demo profiles table: two users with distinct PINs, as in the
specification's test properties. -/
def demoProfiles : List ProfileRow :=
  [{ id := "A", private_pin := "111111", display_name := "a" },
   { id := "B", private_pin := "222222", display_name := "b" }]

/-- Demo chats row between "A" and "B" with the later id at creation
time 5. -/
def mTieLateId : ChatRow :=
  { id := "idB", sender_id := "A", receiver_id := "B", message := "x", created_at := 5 }

/-- Demo chats row between "A" and "B" with the earlier id, also at
creation time 5. -/
def mTieEarlyId : ChatRow :=
  { id := "idA", sender_id := "A", receiver_id := "B", message := "y", created_at := 5 }

/-- Demo chats row from "A" to "B" used to probe visibility for a third
identity. -/
def mPrivate : ChatRow :=
  { id := "m1", sender_id := "A", receiver_id := "B", message := "secret", created_at := 1 }

/-- Demo chats row from "B" to "A" used to probe realtime delivery. -/
def mIncoming : ChatRow :=
  { id := "m2", sender_id := "B", receiver_id := "A", message := "hello", created_at := 1 }

theorem hasConnection_eq_true_iff (conns : List ConnectionRow) (uid cuid : String) :
    hasConnection conns uid cuid = true ↔ (⟨uid, cuid⟩ : ConnectionRow) ∈ conns := by
  simp only [hasConnection, List.any_eq_true, Bool.and_eq_true, beq_iff_eq]
  constructor
  · rintro ⟨c, hc, h1, h2⟩
    cases c
    subst h1; subst h2
    exact hc
  · intro h
    exact ⟨⟨uid, cuid⟩, h, rfl, rfl⟩

/-- C2: for every requesting identity and target PIN, handleAddContact
first looks up the profile whose pin equals the target PIN; on a lookup
miss it fails with the contact-not-found error; if the found profile is
the requester it fails with the self-connection error; otherwise (when
the store constraint admits the row) it appends exactly the one directed
edge requester → target, and the reciprocal edge target → requester is
present afterwards only if it already was before. -/
theorem add_connection_spec (caller pin : String)
    (profiles : List ProfileRow) (conns : List ConnectionRow) :
    (findProfileByPin profiles pin = none →
      handleAddContact caller pin profiles conns = .error .userNotFound)
    ∧ (∀ p, findProfileByPin profiles pin = some p →
        (p.id = caller →
          handleAddContact caller pin profiles conns = .error .cannotAddSelf)
        ∧ (p.id ≠ caller → hasConnection conns caller p.id = false →
            handleAddContact caller pin profiles conns
                = .ok (conns ++ [⟨caller, p.id⟩])
            ∧ ((⟨p.id, caller⟩ : ConnectionRow) ∈ conns ++ [⟨caller, p.id⟩]
                ↔ (⟨p.id, caller⟩ : ConnectionRow) ∈ conns))) := by
  refine ⟨fun h => by simp [handleAddContact, h], fun p hp => ⟨fun he => ?_, fun hne hdup => ?_⟩⟩
  · simp [handleAddContact, hp, he]
  · have hbeq : (p.id == caller) = false := by
      simp [beq_iff_eq]; exact hne
    refine ⟨by simp [handleAddContact, hp, hbeq, connectionsInsert, hdup], ?_⟩
    simp only [List.mem_append, List.mem_singleton]
    have : (⟨p.id, caller⟩ : ConnectionRow) ≠ ⟨caller, p.id⟩ := by
      intro h
      exact hne (congrArg ConnectionRow.user_id h)
    simp [this]

theorem add_connection_spec_witness :
    handleAddContact "A" "222222" demoProfiles [] = .ok [⟨"A", "B"⟩]
    ∧ handleAddContact "A" "111111" demoProfiles [] = .error .cannotAddSelf
    ∧ handleAddContact "A" "999999" demoProfiles [] = .error .userNotFound :=
  ⟨(((add_connection_spec "A" "222222" demoProfiles []).2
      { id := "B", private_pin := "222222", display_name := "b" } (by decide)).2
      (by decide) (by decide)).1,
   ((add_connection_spec "A" "111111" demoProfiles []).2
      { id := "A", private_pin := "111111", display_name := "a" } (by decide)).1 rfl,
   (add_connection_spec "A" "999999" demoProfiles []).1 (by decide)⟩

/-- C6: after a successful first add of the (requester, target) pair, a
second handleAddContact call with the same pair is rejected: the store
insert hits the UNIQUE(user_id, connected_user_id) constraint and
reports a uniqueness violation, handleAddContact surfaces an error
rather than succeeding, and the table holds exactly one copy of the
edge. -/
theorem duplicate_connection_rejected (caller pin : String) (p : ProfileRow)
    (profiles : List ProfileRow) (conns : List ConnectionRow)
    (hfind : findProfileByPin profiles pin = some p) (hne : p.id ≠ caller)
    (hdup : hasConnection conns caller p.id = false) :
    handleAddContact caller pin profiles conns = .ok (conns ++ [⟨caller, p.id⟩])
    ∧ connectionsInsert caller (conns ++ [⟨caller, p.id⟩]) ⟨caller, p.id⟩
        = .error .uniqueViolation
    ∧ handleAddContact caller pin profiles (conns ++ [⟨caller, p.id⟩])
        = .error .failedToAddContact
    ∧ List.count (⟨caller, p.id⟩ : ConnectionRow) (conns ++ [⟨caller, p.id⟩]) = 1 := by
  have hbeq : (p.id == caller) = false := by
    simp [beq_iff_eq]; exact hne
  have hdup2 : hasConnection (conns ++ [⟨caller, p.id⟩]) caller p.id = true := by
    simp [hasConnection, List.any_append]
  have hnotmem : (⟨caller, p.id⟩ : ConnectionRow) ∉ conns := by
    intro h
    rw [← hasConnection_eq_true_iff] at h
    exact absurd h (by simp [hdup])
  refine ⟨by simp [handleAddContact, hfind, hbeq, connectionsInsert, hdup], ?_, ?_, ?_⟩
  · simp [connectionsInsert, hdup2]
  · simp [handleAddContact, hfind, hbeq, connectionsInsert, hdup2]
  · have h0 : List.count (⟨caller, p.id⟩ : ConnectionRow) conns = 0 :=
      List.count_eq_zero_of_not_mem hnotmem
    rw [List.count_append, h0]
    simp

theorem duplicate_connection_rejected_witness :
    handleAddContact "A" "222222" demoProfiles [] = .ok [⟨"A", "B"⟩]
    ∧ connectionsInsert "A" [⟨"A", "B"⟩] ⟨"A", "B"⟩ = .error .uniqueViolation
    ∧ handleAddContact "A" "222222" demoProfiles [⟨"A", "B"⟩]
        = .error .failedToAddContact
    ∧ List.count (⟨"A", "B"⟩ : ConnectionRow) [⟨"A", "B"⟩] = 1 := by
  have h := duplicate_connection_rejected "A" "222222"
    { id := "B", private_pin := "222222", display_name := "b" } demoProfiles []
    (by decide) (by decide) (by decide)
  simpa using h

theorem codeFilter_eq_specBetween (a b : String) (hab : a ≠ b) (m : ChatRow) :
    (fetchFilter a b m && rlsChatRead a m) = specBetween a b m := by
  rw [Bool.eq_iff_iff]
  simp only [fetchFilter, rlsChatRead, specBetween, Bool.and_eq_true, Bool.or_eq_true,
    beq_iff_eq]
  constructor
  · rintro ⟨⟨hA | hA, hB | hB⟩, _⟩
    · exact absurd (hA ▸ hB) hab
    · exact Or.inl ⟨hA, hB⟩
    · exact Or.inr ⟨hB, hA⟩
    · exact absurd (hB ▸ hA).symm hab
  · rintro (⟨hs, hr⟩ | ⟨hs, hr⟩)
    · exact ⟨⟨Or.inl hs, Or.inr hr⟩, Or.inl hs.symm⟩
    · exact ⟨⟨Or.inr hr, Or.inl hs⟩, Or.inr hr.symm⟩

theorem fetchRows_eq_specBetween (a b : String) (hab : a ≠ b) (store : List ChatRow) :
    fetchRows a a b store = store.filter (specBetween a b) := by
  unfold fetchRows
  rw [List.filter_filter]
  exact List.filter_congr (fun m _ => codeFilter_eq_specBetween a b hab m)

/-- C1 amended: for distinct users `a` and `b`, every store response to
fetchChats run by `a` for the conversation with `b` holds exactly the
messages whose sender/receiver pair is `{a, b}` in either direction (as
a multiset, via a permutation) and is sorted by `created_at` ascending;
the relative order of messages with equal `created_at` is not
determined by the query, since it orders by `created_at` only. -/
theorem fetch_conversation_amended (a b : String) (hab : a ≠ b)
    (store result : List ChatRow) (h : fetchResultValid a a b store result) :
    result.Perm (store.filter (specBetween a b)) ∧ result.Sorted createdLe := by
  refine ⟨?_, h.2⟩
  exact (h.1).trans (by rw [fetchRows_eq_specBetween a b hab store])

theorem fetch_conversation_amended_witness :
    ("A" : String) ≠ "B"
    ∧ fetchResultValid "A" "A" "B" [mPrivate] [mPrivate]
    ∧ (List.Perm [mPrivate] ([mPrivate].filter (specBetween "A" "B"))
        ∧ List.Sorted createdLe [mPrivate]) :=
  ⟨by decide, ⟨by decide, by decide⟩,
   fetch_conversation_amended "A" "B" (by decide) [mPrivate] [mPrivate]
     ⟨by decide, by decide⟩⟩

/-- C1 counterexample: with two messages between "A" and "B" sharing
`created_at = 5`, the response that puts the row with the
lexicographically later id first is a valid response to the query (it is
a permutation of the selected rows sorted by `created_at`), yet it is
not ordered with ties in creation time broken by id — the query imposes
no id tie-break. -/
theorem fetch_conversation_tiebreak_counterexample :
    fetchResultValid "A" "A" "B" [mTieLateId, mTieEarlyId] [mTieLateId, mTieEarlyId]
    ∧ ¬ List.Sorted specCreatedThenId [mTieLateId, mTieEarlyId] :=
  ⟨⟨by decide, by decide⟩, by decide⟩

/-- C8: a message is never visible to a third identity: whenever the
caller of fetchChats is neither the sender nor the receiver of a
message, that message does not occur in any valid store response, for
any pair of query arguments — the SELECT policy on chats admits a row
only for its sender or its receiver. -/
theorem third_party_never_sees_message (caller userId receiverId : String)
    (m : ChatRow) (store result : List ChatRow)
    (hs : caller ≠ m.sender_id) (hr : caller ≠ m.receiver_id)
    (h : fetchResultValid caller userId receiverId store result) : m ∉ result := by
  intro hm
  have hmem : m ∈ fetchRows caller userId receiverId store := (h.1.mem_iff).mp hm
  have hrls : rlsChatRead caller m = true := by
    simp only [fetchRows, List.mem_filter] at hmem
    exact hmem.1.2
  simp only [rlsChatRead, Bool.or_eq_true, beq_iff_eq] at hrls
  rcases hrls with h1 | h1
  · exact hs h1
  · exact hr h1

theorem third_party_never_sees_message_witness :
    ("C" : String) ≠ mPrivate.sender_id
    ∧ ("C" : String) ≠ mPrivate.receiver_id
    ∧ fetchResultValid "C" "C" "A" [mPrivate] []
    ∧ mPrivate ∉ ([] : List ChatRow) :=
  ⟨by decide, by decide, ⟨by decide, by decide⟩,
   third_party_never_sees_message "C" "C" "A" mPrivate [mPrivate] []
     (by decide) (by decide) ⟨by decide, by decide⟩⟩

/-- C3: the filter subscribeToChats registers,
`sender_id=eq.A,receiver_id=eq.A`, is a conjunction of the two equality
conditions, not the intended disjunction — evaluated on the message
from "B" to "A" (whose receiver is the subscriber "A"), it does not
match, so the subscriber receives no notification for a message the
claim says must be delivered. -/
theorem subscribe_drops_incoming_message :
    deliveredToSubscriber "A" mIncoming = false
    ∧ mIncoming.receiver_id = "A"
    ∧ deliveredToSubscriber "A" mIncoming
        ≠ (mIncoming.sender_id == "A" || mIncoming.receiver_id == "A") := by
  refine ⟨by decide, by decide, by decide⟩

/-- C4: the row sendMessage inserts carries no `sender_id`, and since
`sender_id` is NOT NULL without a default (and the INSERT policy compares
`auth.uid()` with `sender_id`), the store rejects the insert for every
caller, message and receiver, so sendMessage always throws. -/
theorem sendMessage_always_throws (caller message receiverId : String) :
    (sendMessageRow message receiverId).sender_id = none
    ∧ sendMessage caller message receiverId = .error .notNullViolation :=
  ⟨rfl, rfl⟩

theorem sendMessage_always_throws_witness :
    (sendMessageRow "hello" "B").sender_id = none
    ∧ sendMessage "A" "hello" "B" = .error .notNullViolation :=
  sendMessage_always_throws "A" "hello" "B"

/-- C7: on the shipped `profiles` policies, any authenticated caller may
read any row and only the owner may update a row, but INSERT has no
policy at all, so even the caller whose identity equals the row id — the
very insert signUp issues — is denied; the claim that such a caller can
write (insert) the row fails on the code. -/
theorem profiles_owner_insert_denied :
    profilesPolicyAllows "u1"
        { id := "u1", private_pin := "123456", display_name := "alice" } .insertRow = false
    ∧ profilesPolicyAllows "u1"
        { id := "u1", private_pin := "123456", display_name := "alice" } .updateRow = true
    ∧ profilesPolicyAllows "u2"
        { id := "u1", private_pin := "123456", display_name := "alice" } .readRow = true
    ∧ profilesPolicyAllows "u2"
        { id := "u1", private_pin := "123456", display_name := "alice" } .updateRow = false := by
  refine ⟨rfl, by decide, rfl, by decide⟩

/-- C9 counterexample: an execution of signUp in which the identity
provider creates the account and returns the user: the profiles insert
that follows is rejected (the shipped `profiles` policies admit no
INSERT), so the run ends with the account existing and no profile row —
profile creation is neither atomic with account creation nor guaranteed
at all. -/
theorem signUp_account_without_profile :
    signUp (.okUser "u1") "alice" "123456"
      = { accountExists := true, profileExists := false, threw := true } := by
  decide

/-- C9 amended: signUp creates the identity-provider account first and
issues the profiles insert afterwards as a separate store call; the two
are not atomic. Under the shipped `profiles` policies the insert is
always denied, so no run creates a profile, and every run in which the
provider reports success ends with an account that has no profile row. -/
theorem signUp_not_atomic (auth : AuthSignUpResult) (displayName pin : String) :
    (signUp auth displayName pin).profileExists = false
    ∧ (auth ≠ .authErr → (signUp auth displayName pin).accountExists = true) := by
  cases auth <;> simp [signUp, profilesPolicyAllows]

theorem signUp_not_atomic_witness :
    (signUp (.okUser "u7") "bob" "654321").profileExists = false
    ∧ ((AuthSignUpResult.okUser "u7") ≠ .authErr
        → (signUp (.okUser "u7") "bob" "654321").accountExists = true) :=
  signUp_not_atomic (.okUser "u7") "bob" "654321"

theorem digitChar_isDigit (d : Nat) (h : d < 10) : (digitChar d).isDigit = true := by
  unfold digitChar
  interval_cases d <;> decide

theorem natToDecGo_digits (fuel : Nat) : ∀ (n : Nat) (acc : List Char),
    (∀ c ∈ acc, c.isDigit = true) → ∀ c ∈ natToDecGo fuel n acc, c.isDigit = true := by
  induction fuel with
  | zero => intro n acc hacc; exact hacc
  | succ fuel ih =>
    intro n acc hacc c hc
    rw [natToDecGo] at hc
    by_cases hn : n < 10
    · rw [if_pos hn] at hc
      rcases List.mem_cons.mp hc with h | h
      · exact h ▸ digitChar_isDigit n hn
      · exact hacc c h
    · rw [if_neg hn] at hc
      refine ih (n / 10) (digitChar (n % 10) :: acc) ?_ c hc
      intro d hd
      rcases List.mem_cons.mp hd with h | h
      · exact h ▸ digitChar_isDigit (n % 10) (Nat.mod_lt n (by norm_num))
      · exact hacc d h

theorem natToDecGo_length (fuel : Nat) : ∀ (n : Nat) (acc : List Char) (k : Nat),
    n < 10 ^ k → 0 < k → (natToDecGo fuel n acc).length ≤ k + acc.length := by
  induction fuel with
  | zero => intro n acc k _ _; simp [natToDecGo]
  | succ fuel ih =>
    intro n acc k hn hk
    rw [natToDecGo]
    by_cases h10 : n < 10
    · rw [if_pos h10]
      simp only [List.length_cons]
      omega
    · rw [if_neg h10]
      have hk2 : 1 < k := by
        by_contra hle
        have : k = 1 := by omega
        subst this
        simp at hn
        omega
      have hdiv : n / 10 < 10 ^ (k - 1) := by
        rw [Nat.div_lt_iff_lt_mul (by norm_num)]
        have : 10 ^ (k - 1) * 10 = 10 ^ k := by
          rw [← Nat.pow_succ]
          congr 1
          omega
        omega
      have := ih (n / 10) (digitChar (n % 10) :: acc) (k - 1) hdiv (by omega)
      simp only [List.length_cons] at this
      omega

theorem natToDec_length_le (n : Nat) (h : n < 1000000) : (natToDec n).length ≤ 6 := by
  have h6 : n < 10 ^ 6 := by norm_num [h]
  have := natToDecGo_length (n + 1) n [] 6 h6 (by norm_num)
  simpa [natToDec, String.length] using this

theorem natToDec_digits (n : Nat) : allDigits (natToDec n) := by
  intro c hc
  exact natToDecGo_digits (n + 1) n [] (by simp) c hc

theorem lpad_length (s : String) (n : Nat) (c : Char) : (lpad s n c).length = n := by
  unfold lpad
  by_cases h : n ≤ s.length
  · rw [if_pos h]
    simp only [String.length]
    rw [List.length_take]
    have : s.length = s.data.length := rfl
    omega
  · rw [if_neg h]
    simp only [String.length]
    rw [List.length_append, List.length_replicate]
    have : s.length = s.data.length := rfl
    omega

theorem lpad_digits (s : String) (n : Nat) (h : allDigits s) : allDigits (lpad s n '0') := by
  intro c hc
  unfold lpad at hc
  by_cases hn : n ≤ s.length
  · rw [if_pos hn] at hc
    exact h c (List.mem_of_mem_take hc)
  · rw [if_neg hn] at hc
    rcases List.mem_append.mp hc with h1 | h1
    · rw [List.eq_of_mem_replicate h1]
      decide
    · exact h c h1

theorem pinCandidate_format (r : Nat) :
    (pinCandidate r).length = 6 ∧ allDigits (pinCandidate r) :=
  ⟨lpad_length (natToDec r) 6 '0', lpad_digits (natToDec r) 6 (natToDec_digits r)⟩

/-- C5: every string generate_unique_pin returns is exactly six decimal
digit characters (the candidate is zero-padded to width six by LPAD) and
is not the pin of any profile existing at the moment of allocation — the
loop only exits when the existence check fails. -/
theorem generated_pin_format_and_fresh (profiles : List ProfileRow)
    (rands : List Nat) (s : String)
    (hlt : ∀ r ∈ rands, r < 1000000)
    (hres : generate_unique_pin profiles rands = some s) :
    s.length = 6 ∧ allDigits s ∧ pinExists profiles s = false := by
  induction rands with
  | nil => simp [generate_unique_pin] at hres
  | cons r rs ih =>
    rw [generate_unique_pin] at hres
    by_cases hex : pinExists profiles (pinCandidate r) = true
    · rw [if_pos hex] at hres
      exact ih (fun x hx => hlt x (List.mem_cons_of_mem r hx)) hres
    · rw [if_neg hex] at hres
      have hs : s = pinCandidate r := by
        simpa using hres.symm
      subst hs
      exact ⟨(pinCandidate_format r).1, (pinCandidate_format r).2, by simpa using hex⟩

theorem generated_pin_format_and_fresh_witness :
    (∀ r ∈ [5], r < 1000000)
    ∧ generate_unique_pin demoProfiles [5] = some "000005"
    ∧ ("000005".length = 6 ∧ allDigits "000005"
        ∧ pinExists demoProfiles "000005" = false) :=
  ⟨by decide, by decide,
   generated_pin_format_and_fresh demoProfiles [5] "000005" (by decide) (by decide)⟩

/-- C10: generate_unique_pin is exactly the loop the claim describes —
over any stream of draws, it returns the first candidate whose existence
check fails — and it has no retry cap: whenever every candidate in
[0, 1000000) collides with an existing pin, the loop has returned
nothing after any finite number of iterations. -/
theorem pin_loop_first_fresh_and_unbounded (profiles : List ProfileRow)
    (rands : List Nat) (hlt : ∀ r ∈ rands, r < 1000000) :
    generate_unique_pin profiles rands
        = (rands.map pinCandidate).find? (fun c => !(pinExists profiles c))
    ∧ ((∀ r, r < 1000000 → pinExists profiles (pinCandidate r) = true) →
        generate_unique_pin profiles rands = none) := by
  constructor
  · clear hlt
    induction rands with
    | nil => rfl
    | cons r rs ih =>
      rw [generate_unique_pin, List.map_cons, List.find?_cons]
      by_cases hex : pinExists profiles (pinCandidate r) = true
      · rw [if_pos hex, hex]
        exact ih
      · have hex2 : pinExists profiles (pinCandidate r) = false := by
          simpa using hex
        rw [if_neg hex, hex2]
        rfl
  · intro hall
    induction rands with
    | nil => rfl
    | cons r rs ih =>
      rw [generate_unique_pin,
        if_pos (hall r (hlt r (List.mem_cons_self r rs)))]
      exact ih (fun x hx => hlt x (List.mem_cons_of_mem r hx))

theorem pin_loop_first_fresh_and_unbounded_witness :
    (∀ r ∈ [3, 7], r < 1000000)
    ∧ (generate_unique_pin demoProfiles [3, 7]
          = ([3, 7].map pinCandidate).find? (fun c => !(pinExists demoProfiles c))
      ∧ ((∀ r, r < 1000000 → pinExists demoProfiles (pinCandidate r) = true) →
          generate_unique_pin demoProfiles [3, 7] = none)) :=
  ⟨by decide, pin_loop_first_fresh_and_unbounded demoProfiles [3, 7] (by decide)⟩
